import Mathlib

/-!
Verification of the ASYCUDA Excel-to-XML converter (`batch.py`).

The Python code builds an `xml.etree.ElementTree` document by mutating a
tree of elements.  We embed it shallowly: an element is a tag, an optional
text value and an ordered list of children, and every builder function of
the source becomes a pure Lean function returning the (sub)tree it appends.
Python floats are modelled as exact decimal numbers together with the
int/float distinction that `0 + float(...)` introduces — an idealization
of the source's IEEE-754 arithmetic, see the Python-numbers section;
`pandas` sheet reading is abstracted as an already-read sheet value
(`none` models a read failure).
-/

/-- An XML element as built by `xml.etree.ElementTree`: a tag name, an
optional text value, and an ordered list of child elements. -/
inductive XmlNode where
  | elem (tag : String) (text : Option String) (children : List XmlNode)

/-- The sentinel test of `add_element` (batch.py line 106): text is dropped
when it is falsy (empty) or the literal string nan or None. -/
def sentinel (s : String) : Bool :=
  s == "" || s == "nan" || s == "None"

/-- Text actually stored by `add_element`: the given string unless it is a
sentinel value, in which case no text is stored (the element itself is
still created). -/
def sentinelFilter (s : String) : Option String :=
  if sentinel s then none else some s

/-- `add_element(parent, tag, text)` (batch.py lines 103-108): always creates
the child element, and sets its text only for non-sentinel values. -/
def mkLeaf (tag : String) (txt : String) : XmlNode :=
  .elem tag (sentinelFilter txt) []

/-- A header (SAD) record or item record: a mapping from column name to the
string form of the cell, as built by `read_excel_data`. -/
structure Record where
  entries : List (String × String)

/-- `dict.get(key, default)`: the stored value when the key is present (even
when that value is the empty string), the default otherwise. -/
def Record.get (r : Record) (k d : String) : String :=
  match r.entries.lookup k with
  | some v => v
  | none => d

def emptyRecord : Record := ⟨[]⟩

/-- The consignment-specific fixed value table `CONSIGNMENT_VALUES`
(batch.py lines 23-46). -/
structure ConsignmentValues where
  total_invoice : String
  total_cif : String
  total_cost : String
  external_freight_foreign : String
  external_freight_national : String
  insurance_foreign : String
  insurance_national : String
  other_cost_foreign : String
  other_cost_national : String
  total_cif_itm : String
  statistical_value : String
  alpha_coefficient : String
  duty_tax_base : String
  duty_tax_rate : String
  duty_tax_amount : String
  total_item_taxes : String
  calculation_working_mode : String
  container_flag : String
  delivery_terms_code : String
  currency_rate : String
  manifest_reference : String
  total_forms : String

def CONSIGNMENT_VALUES : ConsignmentValues where
  total_invoice := "2006.64"
  total_cif := "4212.99"
  total_cost := "621.1"
  external_freight_foreign := "4.78"
  external_freight_national := "8.56"
  insurance_foreign := "0.58"
  insurance_national := "1.04"
  other_cost_foreign := "0.47"
  other_cost_national := "0.84"
  total_cif_itm := "70.8"
  statistical_value := "71"
  alpha_coefficient := "0.0168042100227245"
  duty_tax_base := "71"
  duty_tax_rate := "6"
  duty_tax_amount := "4.3"
  total_item_taxes := "347.75"
  calculation_working_mode := "0"
  container_flag := "False"
  delivery_terms_code := "DDP"
  currency_rate := "1.79"
  manifest_reference := "LV02 2025 6241"
  total_forms := "16"

/-! ### Python numbers

`calculate_form_totals` starts from the int `0` and adds `float(...)`
results; the running value is an int until the first successful float
parse.  We model the value as a decimal fixed-point number (an integer
numerator over a power of ten) and keep the int/float flag because Python
renders the two differently (`str(0)` vs `str(0.0)`).

This is an idealization: the source computes in IEEE-754 binary64, whose
rounding (for instance `0.1 + 0.2` printing as `0.30000000000000004`),
non-finite values and shortest-round-trip `repr` are not captured here.
The idealization only feeds one leaf text of the built document (the
declaration-level Invoice foreign amount); no aggregation property is
claimed over it.
-/

/-- A decimal number `num / 10 ^ exp`. -/
structure DecNum where
  num : ℤ
  exp : ℕ
deriving DecidableEq

/-- Addition of decimal numbers (exact, unlike the source's binary64
addition). -/
def DecNum.add (a b : DecNum) : DecNum :=
  let m := max a.exp b.exp
  ⟨a.num * 10 ^ (m - a.exp) + b.num * 10 ^ (m - b.exp), m⟩

/-- Negation of a decimal number. -/
def DecNum.neg (d : DecNum) : DecNum := ⟨-d.num, d.exp⟩

/-- Scaling of a decimal number by an integer power of ten. -/
def DecNum.scale10 (d : DecNum) : ℤ → DecNum
  | .ofNat k => ⟨d.num * 10 ^ k, d.exp⟩
  | .negSucc k => ⟨d.num, d.exp + (k + 1)⟩

/-- ASCII lowercasing of one character. -/
def lowerChar (c : Char) : Char :=
  if 65 ≤ c.toNat ∧ c.toNat ≤ 90 then Char.ofNat (c.toNat + 32) else c

/-- Python `str.strip` whitespace. -/
def isSpaceChar (c : Char) : Bool :=
  c == ' ' || c == '\t' || c == '\n' || c == '\r'

/-- Characters of a string, stripped of surrounding whitespace and
lowercased (the normalization `float` applies to its argument). -/
def floatInputChars (s : String) : List Char :=
  (((s.toList.map lowerChar).dropWhile isSpaceChar).reverse.dropWhile
      isSpaceChar).reverse

/-- Split a character list on a separator character. -/
def splitOnChar (sep : Char) : List Char → List (List Char)
  | [] => [[]]
  | c :: cs =>
      match splitOnChar sep cs, c == sep with
      | r, true => [] :: r
      | [], false => [[c]]
      | h :: t, false => (c :: h) :: t

/-- Numeric value of a digit-character list. -/
def digitsVal (cs : List Char) : ℕ :=
  cs.foldl (fun a c => a * 10 + (c.toNat - 48)) 0

/-- Mantissa of a Python float literal: digits, optionally with one decimal
point; at least one digit must be present (`1.`, `.5` and `10` are all
accepted, `.` and `abc` are not). -/
def parseMantissa? (cs : List Char) : Option DecNum :=
  match splitOnChar '.' cs with
  | [w] =>
      if !w.isEmpty && w.all Char.isDigit then some ⟨(digitsVal w : ℤ), 0⟩
      else none
  | [w, f] =>
      if (!w.isEmpty || !f.isEmpty) && w.all Char.isDigit
          && f.all Char.isDigit then
        some ⟨(digitsVal w * 10 ^ f.length + digitsVal f : ℤ), f.length⟩
      else none
  | _ => none

/-- Optionally signed decimal exponent. -/
def parseExponent? (cs : List Char) : Option ℤ :=
  match cs with
  | '+' :: ds =>
      if !ds.isEmpty && ds.all Char.isDigit then some (digitsVal ds : ℤ)
      else none
  | '-' :: ds =>
      if !ds.isEmpty && ds.all Char.isDigit then some (-(digitsVal ds : ℤ))
      else none
  | ds =>
      if !ds.isEmpty && ds.all Char.isDigit then some (digitsVal ds : ℤ)
      else none

/-- Idealized model of Python `float(s)` on ordinary decimal literals:
optional surrounding whitespace, optional sign, decimal mantissa,
optional exponent, read as an exact decimal rather than rounded to the
nearest binary64.  Non-finite spellings (inf, nan) and underscore
grouping, which `float()` accepts, are rejected here. -/
def pyFloat? (s0 : String) : Option DecNum :=
  let cs := floatInputChars s0
  let neg : Bool := match cs with | '-' :: _ => true | _ => false
  let cs1 := match cs with
    | '-' :: rest => rest
    | '+' :: rest => rest
    | rest => rest
  let mag : Option DecNum :=
    match splitOnChar 'e' cs1 with
    | [m] => parseMantissa? m
    | [m, ex] =>
        match parseMantissa? m, parseExponent? ex with
        | some mv, some ev => some (mv.scale10 ev)
        | _, _ => none
    | _ => none
  mag.map (fun d => if neg then d.neg else d)

/-- A Python number: its exact value, and whether it is a float (rather
than an int), which decides how `str` renders it. -/
structure PyNum where
  val : DecNum
  isFloat : Bool
deriving DecidableEq

/-- Digit character for a value below ten. -/
def digitChar (r : ℕ) : Char := Char.ofNat (48 + r)

/-- Decimal digits of a natural number, most significant first, prepended
to `acc`.  The first argument is fuel; any fuel at least the number of
digits (for instance `n + 1`) yields the digits of `n`. -/
def natReprAux : ℕ → ℕ → List Char → List Char
  | 0, _, acc => acc
  | fuel + 1, n, acc =>
      if n = 0 then acc
      else natReprAux fuel (n / 10) (digitChar (n % 10) :: acc)

/-- Decimal rendering of a natural number (model of Python `str` on
non-negative ints). -/
def natRepr (n : ℕ) : String :=
  if n = 0 then "0" else String.mk (natReprAux (n + 1) n [])

def padLeftZeros (cs : List Char) (k : ℕ) : List Char :=
  List.replicate (k - cs.length) '0' ++ cs

/-- Remove factors of ten shared by the numerator and the scale, fuel
first: `normDecAux fuel n e` divides `n` by ten and decrements `e` while
`e` is positive and `n` is divisible by ten. -/
def normDecAux : ℕ → ℕ → ℕ → ℕ × ℕ
  | 0, n, e => (n, e)
  | fuel + 1, n, e =>
      if e = 0 then (n, e)
      else if n % 10 = 0 then normDecAux fuel (n / 10) (e - 1)
      else (n, e)

/-- Idealized model of Python `str` on a float value: sign, integer part,
a decimal point, and the fractional digits with trailing zeros removed
but at least one digit kept (`str(15.0)` is `15.0`).  It renders the
exact decimal value, where Python renders the shortest round-trip repr of
the binary64 (and exponent form for large magnitudes). -/
def floatRepr (d : DecNum) : String :=
  let sgn := if d.num < 0 then "-" else ""
  let p := normDecAux d.exp d.num.natAbs d.exp
  sgn ++ natRepr (p.1 / 10 ^ p.2) ++ "."
    ++ (if p.2 = 0 then "0"
        else String.mk (padLeftZeros (natRepr (p.1 % 10 ^ p.2)).toList p.2))

/-- Model of Python `str` on the accumulator of `calculate_form_totals`. -/
def pyStr (x : PyNum) : String :=
  if x.isFloat then floatRepr x.val
  else (if x.val.num < 0 then "-" else "") ++ natRepr x.val.num.natAbs

/-- One loop step of `calculate_form_totals` (batch.py lines 94-99):
`invoice_foreign_total += float(inv_foreign) if inv_foreign else 0`, with
a parse failure swallowed by the bare `except`.  The accumulation is
exact decimal addition here, an idealization of the source's rounding
binary64 addition. -/
def formTotalsStep (acc : PyNum) (item : Record) : PyNum :=
  let inv := item.get "Invoice Amount_foreign_currency" "0"
  if inv = "" then acc
  else
    match pyFloat? inv with
    | some q => ⟨acc.val.add q, true⟩
    | none => acc

/-- `calculate_form_totals(items_data)` (batch.py lines 91-101). -/
def calculate_form_totals (items_data : List Record) : PyNum :=
  items_data.foldl formTotalsStep ⟨⟨0, 0⟩, false⟩

/-! ### Document builders (batch.py lines 110-463) -/

/-- `create_valuation_subsections(parent, form_invoice_foreign)`
(batch.py lines 110-158): the six declaration-level currency sub-blocks,
in source order. -/
def create_valuation_subsections (form_invoice_foreign : PyNum) : List XmlNode :=
  [ .elem "Invoice" none
      [ mkLeaf "Amount_national_currency" "3591.89",
        mkLeaf "Amount_foreign_currency" (pyStr form_invoice_foreign),
        mkLeaf "Currency_code" "USD",
        mkLeaf "Currency_name" "Geen vreemde valuta",
        mkLeaf "Currency_rate" CONSIGNMENT_VALUES.currency_rate ],
    .elem "External_freight" none
      [ mkLeaf "Amount_national_currency" "509.24",
        mkLeaf "Amount_foreign_currency" "17.27",
        mkLeaf "Currency_code" "USD",
        mkLeaf "Currency_name" "Geen vreemde valuta",
        mkLeaf "Currency_rate" CONSIGNMENT_VALUES.currency_rate ],
    .elem "Internal_freight" none
      [ mkLeaf "Amount_national_currency" "0",
        mkLeaf "Amount_foreign_currency" "0",
        mkLeaf "Currency_code" "",
        mkLeaf "Currency_name" "Geen vreemde valuta",
        mkLeaf "Currency_rate" "0" ],
    .elem "Insurance" none
      [ mkLeaf "Amount_national_currency" "62.26",
        mkLeaf "Amount_foreign_currency" "1.00875",
        mkLeaf "Currency_code" "USD",
        mkLeaf "Currency_name" "Geen vreemde valuta",
        mkLeaf "Currency_rate" CONSIGNMENT_VALUES.currency_rate ],
    .elem "Other_cost" none
      [ mkLeaf "Amount_national_currency" "49.6",
        mkLeaf "Amount_foreign_currency" "",
        mkLeaf "Currency_code" "USD",
        mkLeaf "Currency_name" "Geen vreemde valuta",
        mkLeaf "Currency_rate" CONSIGNMENT_VALUES.currency_rate ],
    .elem "Deduction" none
      [ mkLeaf "Amount_national_currency" "0",
        mkLeaf "Amount_foreign_currency" "0",
        mkLeaf "Currency_code" "USD",
        mkLeaf "Currency_name" "Geen vreemde valuta",
        mkLeaf "Currency_rate" CONSIGNMENT_VALUES.currency_rate ] ]

/-- `create_item_supplementary_unit(parent, item_data, unit_num)`
(batch.py lines 160-176). -/
def create_item_supplementary_unit (item_data : Record) (unit_num : String) :
    XmlNode :=
  .elem "Supplementary_unit" none
    (if unit_num = "1" then
      [ mkLeaf "Supplementary_unit_rank" "",
        mkLeaf "Supplementary_unit_code"
          (item_data.get "Supplementary_unit_code" "PCE"),
        mkLeaf "Supplementary_unit_name"
          (item_data.get "Supplementary_unit_name_1" "Aantal Stucks"),
        mkLeaf "Supplementary_unit_quantity"
          (item_data.get "Supplementary_unit_quantity_1" "") ]
    else if unit_num = "2" then
      [ mkLeaf "Supplementary_unit_rank" "2",
        mkLeaf "Supplementary_unit_name"
          (item_data.get "Supplementary_unit_name_2" ""),
        mkLeaf "Supplementary_unit_quantity"
          (item_data.get "Supplementary_unit_quantity_2" "") ]
    else
      [ mkLeaf "Supplementary_unit_rank" "3",
        mkLeaf "Supplementary_unit_name"
          (item_data.get "Supplementary_unit_name_3" ""),
        mkLeaf "Supplementary_unit_quantity"
          (item_data.get "Supplementary_unit_quantity_3" "") ])

/-- `create_item_valuation_subsections(parent, item_data)`
(batch.py lines 178-226): the six per-item currency sub-blocks. -/
def create_item_valuation_subsections (item_data : Record) : List XmlNode :=
  [ .elem "Invoice" none
      [ mkLeaf "Amount_national_currency" "",
        mkLeaf "Amount_foreign_currency"
          (item_data.get "Invoice Amount_foreign_currency" ""),
        mkLeaf "Currency_code" "USD",
        mkLeaf "Currency_name" "Geen vreemde valuta",
        mkLeaf "Currency_rate" CONSIGNMENT_VALUES.currency_rate ],
    .elem "External_freight" none
      [ mkLeaf "Amount_national_currency"
          CONSIGNMENT_VALUES.external_freight_national,
        mkLeaf "Amount_foreign_currency"
          CONSIGNMENT_VALUES.external_freight_foreign,
        mkLeaf "Currency_code" "USD",
        mkLeaf "Currency_name" "Geen vreemde valuta",
        mkLeaf "Currency_rate" CONSIGNMENT_VALUES.currency_rate ],
    .elem "Internal_freight" none
      [ mkLeaf "Amount_national_currency" "0",
        mkLeaf "Amount_foreign_currency" "",
        mkLeaf "Currency_code" "",
        mkLeaf "Currency_name" "Geen vreemde valuta",
        mkLeaf "Currency_rate" "0" ],
    .elem "Insurance" none
      [ mkLeaf "Amount_national_currency" CONSIGNMENT_VALUES.insurance_national,
        mkLeaf "Amount_foreign_currency" CONSIGNMENT_VALUES.insurance_foreign,
        mkLeaf "Currency_code" "USD",
        mkLeaf "Currency_name" "Geen vreemde valuta",
        mkLeaf "Currency_rate" CONSIGNMENT_VALUES.currency_rate ],
    .elem "Other_cost" none
      [ mkLeaf "Amount_national_currency" CONSIGNMENT_VALUES.other_cost_national,
        mkLeaf "Amount_foreign_currency" CONSIGNMENT_VALUES.other_cost_foreign,
        mkLeaf "Currency_code" "USD",
        mkLeaf "Currency_name" "Geen vreemde valuta",
        mkLeaf "Currency_rate" CONSIGNMENT_VALUES.currency_rate ],
    .elem "Deduction" none
      [ mkLeaf "Amount_national_currency" "0",
        mkLeaf "Amount_foreign_currency" "0",
        mkLeaf "Currency_code" "USD",
        mkLeaf "Currency_name" "Geen vreemde valuta",
        mkLeaf "Currency_rate" CONSIGNMENT_VALUES.currency_rate ] ]

/-- `create_item_element(parent, item_data, item_number)`
(batch.py lines 228-294).  `item_number` is accepted but, as in the
source, never used. -/
def create_item_element (item_data : Record) (item_number : ℕ) : XmlNode :=
  .elem "Item" none
    [ .elem "Packages" none
        [ mkLeaf "Number_of_packages" (item_data.get "Number_of_packages" ""),
          mkLeaf "Marks1_of_packages" (item_data.get "Marks1_of_packages" ""),
          mkLeaf "Marks2_of_packages" (item_data.get "Marks2_of_packages" ""),
          mkLeaf "Kind_of_packages_code"
            (item_data.get "Kind_of_packages_code" "STKS"),
          mkLeaf "Kind_of_packages_name"
            (item_data.get "Kind_of_packages_name" "Stuks") ],
      .elem "Tariff" none
        [ mkLeaf "Extended_customs_procedure"
            (item_data.get "Extended_customs_procedure" "4000"),
          mkLeaf "National_customs_procedure"
            (item_data.get "National_customs_procedure" "00:00:00"),
          mkLeaf "Preference_code" (item_data.get "Preference_code" ""),
          .elem "Harmonized_system" none
            [ mkLeaf "Commodity_code" (item_data.get "Commodity_code" ""),
              mkLeaf "Precision_4" (item_data.get "Precision_4" "") ],
          create_item_supplementary_unit item_data "1",
          create_item_supplementary_unit item_data "2",
          create_item_supplementary_unit item_data "3",
          .elem "Quota" none
            [ mkLeaf "Quota_code" (item_data.get "Quota_code" "") ] ],
      .elem "Goods_description" none
        [ mkLeaf "Country_of_origin_code"
            (item_data.get "Country_of_origin_code" "US"),
          mkLeaf "Description_of_goods"
            (item_data.get "Description_of_goods" ""),
          mkLeaf "Commercial_description"
            (item_data.get "Commercial_description" "") ],
      .elem "Valuation_item" none
        ([ mkLeaf "Rate_of_adjustment" "1",
           mkLeaf "Total_cost_itm" "",
           mkLeaf "Total_cif_itm" CONSIGNMENT_VALUES.total_cif_itm,
           mkLeaf "Statistical_value" CONSIGNMENT_VALUES.statistical_value,
           mkLeaf "Alpha_coeficient_of_apportionment"
             CONSIGNMENT_VALUES.alpha_coefficient,
           .elem "Weight" none
             [ mkLeaf "Gross_weight_itm" (item_data.get "Gross_weight_itm" "0.5"),
               mkLeaf "Net_weight_itm" (item_data.get "Net_weight_itm" "0.5") ] ]
          ++ create_item_valuation_subsections item_data),
      .elem "Previous_document" none
        [ mkLeaf "Summary_declaration" (item_data.get "Summary_declaration" ""),
          mkLeaf "Summary_declaration_sl"
            (item_data.get "Summary_declaration_sl" "1") ],
      .elem "Taxation" none
        [ mkLeaf "Item_taxes_amount" CONSIGNMENT_VALUES.duty_tax_amount,
          mkLeaf "Item_taxes_mode_of_payment" "1",
          .elem "Taxation_line" none
            [ mkLeaf "Duty_tax_code" "IR",
              mkLeaf "Duty_tax_base" CONSIGNMENT_VALUES.duty_tax_base,
              mkLeaf "Duty_tax_rate" CONSIGNMENT_VALUES.duty_tax_rate,
              mkLeaf "Duty_tax_amount" CONSIGNMENT_VALUES.duty_tax_amount,
              mkLeaf "Duty_tax_MP" "1" ] ] ]

/-- The SAD subtree of `create_asycuda_xml` (batch.py lines 304-454).
`form_invoice_foreign` is the precomputed invoice total and `item_count`
the value of `len(items_data)` used for `Total_weight`. -/
def sadSection (sad_data : Record) (form_invoice_foreign : PyNum)
    (item_count : ℕ) : XmlNode :=
  .elem "SAD" none
    [ .elem "Assessment_notice" none
        [ mkLeaf "Total_item_taxes" CONSIGNMENT_VALUES.total_item_taxes,
          .elem "Items_taxes" none
            [ .elem "Item_tax" none
                [ mkLeaf "Tax_code" (sad_data.get "Tax_code" "IR"),
                  mkLeaf "Tax_description"
                    (sad_data.get "Tax_description" "Invoerrechten"),
                  mkLeaf "Tax_amount" CONSIGNMENT_VALUES.total_item_taxes,
                  mkLeaf "Tax_mop" (sad_data.get "Tax_mop" "1") ] ] ],
      .elem "Properties" none
        [ mkLeaf "Sad_flow" (sad_data.get "Sad_flow" "I"),
          .elem "Forms" none
            [ mkLeaf "Number_of_the_form"
                (sad_data.get "Number_of_the_form" "1"),
              mkLeaf "Total_number_of_forms" CONSIGNMENT_VALUES.total_forms ],
          mkLeaf "Selected_page" (sad_data.get "Selected_page" "1") ],
      .elem "Identification" none
        [ mkLeaf "Manifest_reference_number"
            CONSIGNMENT_VALUES.manifest_reference,
          .elem "Office_segment" none
            [ mkLeaf "Customs_clearance_office_code"
                (sad_data.get "Customs_clearance_office_code" "LV01"),
              mkLeaf "Customs_clearance_office_name"
                (sad_data.get "Customs_clearance_office_name"
                  "Luchthaven Vracht") ],
          .elem "Type" none
            [ mkLeaf "Type_of_declaration"
                (sad_data.get "Type_of_declaration" "INV"),
              mkLeaf "General_procedure_code"
                (sad_data.get "General_procedure_code" "4") ] ],
      .elem "Traders" none
        [ .elem "Exporter" none
            [ mkLeaf "Exporter_code" (sad_data.get "Exporter_code" ""),
              mkLeaf "Exporter_name" (sad_data.get "Exporter_name" "") ],
          .elem "Consignee" none
            [ mkLeaf "Consignee_code" (sad_data.get "Consignee_code" "10026483"),
              mkLeaf "Consignee_name"
                (sad_data.get "Consignee_name"
                  "Dhr. Anthony Martina Paradera 1-H Paradera Paradera Aruba") ],
          .elem "Financial" none
            [ mkLeaf "Financial_code" (sad_data.get "Financial_code" ""),
              mkLeaf "Financial_name" (sad_data.get "Financial_name" "") ] ],
      .elem "Declarant" none
        [ mkLeaf "Declarant_code" (sad_data.get "Declarant_code" "1160650"),
          mkLeaf "Declarant_name"
            (sad_data.get "Declarant_name"
              "Dhr. Victor Hoek Alto Vista 133 Alto Vista Noord/Tanki Leendert Aruba"),
          mkLeaf "Declarant_representative"
            (sad_data.get "Declarant_representative" "Lizandra I. Geerman"),
          .elem "Reference" none
            [ mkLeaf "Year" (sad_data.get "Reference Year" "2025"),
              mkLeaf "Number" (sad_data.get "Reference Number" "") ] ],
      .elem "General_information" none
        [ .elem "Country" none
            [ mkLeaf "Country_first_destination"
                (sad_data.get "Country_first_destination" "US"),
              mkLeaf "Trading_country" (sad_data.get "Trading_country" "US"),
              mkLeaf "Country_of_origin_name"
                (sad_data.get "Country_of_origin_name" "Verenigde Staten"),
              .elem "Export" none
                [ mkLeaf "Export_country_code"
                    (sad_data.get "Export_country_code" "US"),
                  mkLeaf "Export_country_name"
                    (sad_data.get "Export_country_name" "Verenigde Staten"),
                  mkLeaf "Export_country_region"
                    (sad_data.get "Export_country_region" "") ],
              .elem "Destination" none
                [ mkLeaf "Destination_country_code"
                    (sad_data.get "Destination_country_code" "AW"),
                  mkLeaf "Destination_country_name"
                    (sad_data.get "Destination_country_name" "Aruba"),
                  mkLeaf "Destination_country_region"
                    (sad_data.get "Destination_country_region" "") ] ],
          mkLeaf "Value_details" CONSIGNMENT_VALUES.total_cost,
          mkLeaf "CAP" (sad_data.get "CAP" "") ],
      .elem "Transport" none
        [ mkLeaf "Container_flag" CONSIGNMENT_VALUES.container_flag,
          mkLeaf "Location_of_goods" (sad_data.get "Location_of_goods" "RT-01"),
          mkLeaf "Location_of_goods_address"
            (sad_data.get "Location_of_goods_address" "Sabana Berde #75"),
          .elem "Means_of_transport" none
            [ .elem "Departure_arrival_information" none
                [ mkLeaf "Identity"
                    (sad_data.get "Departure_arrival_information Identity"
                      "COPA AIRLINES"),
                  mkLeaf "Nationality"
                    (sad_data.get "Departure_arrival_information Nationality"
                      "PA") ],
              .elem "Border_information" none
                [ mkLeaf "Identity"
                    (sad_data.get "Border_information Identity" ""),
                  mkLeaf "Nationality"
                    (sad_data.get "Border_information Nationality" ""),
                  mkLeaf "Mode" (sad_data.get "Border_information Mode" "4") ] ],
          .elem "Delivery_terms" none
            [ mkLeaf "Code" CONSIGNMENT_VALUES.delivery_terms_code,
              mkLeaf "Place" (sad_data.get "Delivery_terms Place" "USA") ],
          .elem "Border_office" none
            [ mkLeaf "Code" (sad_data.get "Border_office Code" "LV01"),
              mkLeaf "Name"
                (sad_data.get "Border_office Name" "Luchthaven Vracht") ],
          .elem "Place_of_loading" none
            [ mkLeaf "Code" (sad_data.get "Place_of_loading Code" "AWAIR"),
              mkLeaf "Name"
                (sad_data.get "Place_of_loading Name"
                  "Aeropuerto Reina Beatrix") ] ],
      .elem "Financial" none
        [ mkLeaf "Deffered_payment_reference"
            (sad_data.get "Deffered_payment_reference" ""),
          mkLeaf "Mode_of_payment" (sad_data.get "Mode_of_payment" "CONTANT"),
          .elem "Financial_transaction" none
            [ mkLeaf "Code_1" (sad_data.get "Financial_transaction Code_1" "1"),
              mkLeaf "Code_2"
                (sad_data.get "Financial_transaction Code_1" "1") ],
          .elem "Bank" none
            [ mkLeaf "Branch" (sad_data.get "Bank Branch" ""),
              mkLeaf "Reference" (sad_data.get "Bank Reference" "") ],
          .elem "Terms" none
            [ mkLeaf "Code" (sad_data.get "Terms Code" ""),
              mkLeaf "Description" (sad_data.get "Terms Description" "") ],
          .elem "Amounts" none
            [ mkLeaf "Global_taxes" (sad_data.get "Amounts Global_taxes" "0"),
              mkLeaf "Totals_taxes" CONSIGNMENT_VALUES.total_item_taxes ],
          .elem "Guarantee" none
            [ mkLeaf "Amount" (sad_data.get "Guarantee Amount" "0") ] ],
      .elem "Transit" none
        [ mkLeaf "Result_of_control" (sad_data.get "Result_of_control" "") ],
      .elem "Valuation" none
        ([ mkLeaf "Calculation_working_mode"
             CONSIGNMENT_VALUES.calculation_working_mode,
           mkLeaf "Total_cost" CONSIGNMENT_VALUES.total_cost,
           mkLeaf "Total_cif" CONSIGNMENT_VALUES.total_cif ]
          ++ create_valuation_subsections form_invoice_foreign
          ++ [ .elem "Total" none
                 [ mkLeaf "Total_invoice" CONSIGNMENT_VALUES.total_invoice,
                   mkLeaf "Total_weight" (natRepr item_count) ] ]) ]

/-- `create_asycuda_xml(sad_data, items_data, filename)` (batch.py lines
296-463): the whole document, with one `Item` subtree per item record in
input order, numbered from 1 as in the source loop. -/
def create_asycuda_xml (sad_data : Record) (items_data : List Record) :
    XmlNode :=
  .elem "ASYCUDA" none
    [ sadSection sad_data (calculate_form_totals items_data) items_data.length,
      .elem "Items" none
        (items_data.enum.map (fun p => create_item_element p.2 (p.1 + 1))) ]

/-! ### Serialization (batch.py lines 465-469)

`prettify_xml` runs the tree through `minidom.toprettyxml(indent="  ")`.
For the trees the mapper produces (text only on childless elements) this
renders, per element, one line at two spaces of indentation per depth:
a self-closing tag for an element with neither text nor children, an
inline `<tag>text</tag>` line for a text leaf, and an open/close pair
around the children otherwise.
-/

def ind (d : ℕ) : String := String.join (List.replicate d "  ")

mutual

def serializeLines (d : ℕ) : XmlNode → List String
  | .elem tag none [] => [ind d ++ "<" ++ tag ++ "/>"]
  | .elem tag (some t) [] => [ind d ++ "<" ++ tag ++ ">" ++ t ++ "</" ++ tag ++ ">"]
  | .elem tag _ (c :: cs) =>
      (ind d ++ "<" ++ tag ++ ">")
        :: serializeLinesList (d + 1) (c :: cs) ++ [ind d ++ "</" ++ tag ++ ">"]

def serializeLinesList (d : ℕ) : List XmlNode → List String
  | [] => []
  | c :: cs => serializeLines d c ++ serializeLinesList d cs

end

/-- `prettify_xml(elem)` (batch.py lines 465-469): XML declaration line
followed by the pretty-printed tree. -/
def prettify_xml (root : XmlNode) : String :=
  "<?xml version=\"1.0\" ?>\n"
    ++ String.intercalate "\n" (serializeLines 0 root) ++ "\n"

/-! ### Shape erasure, for the fixed-shape invariant -/

mutual

/-- The shape of a tree: the tree with every text value removed. -/
def eraseText : XmlNode → XmlNode
  | .elem t _ cs => .elem t none (eraseTextList cs)

def eraseTextList : List XmlNode → List XmlNode
  | [] => []
  | c :: cs => eraseText c :: eraseTextList cs

end

/-- Shape of one `Item` subtree: it is the same for every item record. -/
def itemShape : XmlNode := eraseText (create_item_element emptyRecord 1)

/-- Shape of the whole document, as a function of the item count alone. -/
def docShape (n : ℕ) : XmlNode :=
  .elem "ASYCUDA" none
    [ eraseText (sadSection emptyRecord ⟨⟨0, 0⟩, false⟩ 0),
      .elem "Items" none (List.replicate n itemShape) ]

/-! ### Tree access helpers -/

def tagOf : XmlNode → String
  | .elem t _ _ => t

def textOf : XmlNode → Option String
  | .elem _ tx _ => tx

def childrenOf : XmlNode → List XmlNode
  | .elem _ _ cs => cs

/-- First child carrying the given tag. -/
def child? (n : XmlNode) (tag : String) : Option XmlNode :=
  (childrenOf n).find? (fun c => tagOf c == tag)

/-- Walk a path of tags from a node. -/
def descend? (n : XmlNode) (path : List String) : Option XmlNode :=
  path.foldl (fun acc t => acc.bind (fun m => child? m t)) (some n)

/-- Text of the element at a path of tags. -/
def getText (n : XmlNode) (path : List String) : Option String :=
  (descend? n path).bind textOf

/-! ### Extraction and per-file conversion (batch.py lines 52-89, 471-489)

The `pandas` layer is abstracted: a sheet read outcome is `none` when
`pd.read_excel` raised (missing sheet, unreadable file, ...) and otherwise
the list of rows, each row a list of column/cell pairs with `none` for a
null (`NaN`) cell.  Cell values are already their `str` forms.
-/

/-- The two per-sheet read outcomes for one uploaded file. -/
structure ExcelFile where
  sadSheet : Option (List (List (String × Option String)))
  itemsSheet : Option (List (List (String × Option String)))

/-- The per-row normalization of `read_excel_data`: a non-null cell keeps
its string form, a null cell becomes the empty string. -/
def normalizeRow (row : List (String × Option String)) : Record :=
  ⟨row.map (fun p => (p.1, p.2.getD ""))⟩

/-- `read_excel_data(file_content)` (batch.py lines 52-89): the SAD record
from the first row of a present, non-empty SAD sheet, else empty; the item
records from every row of a present Items sheet; each sheet's failure is
absorbed without touching the other. -/
def read_excel_data (f : ExcelFile) : Record × List Record :=
  let sad_data :=
    match f.sadSheet with
    | some (r :: _) => normalizeRow r
    | _ => emptyRecord
  let items_data :=
    match f.itemsSheet with
    | some rows => rows.map normalizeRow
    | none => []
  (sad_data, items_data)

/-- `convert_excel_to_xml(file_content, filename)` (batch.py lines
471-489): fails exactly when both the SAD record and the item list are
empty, otherwise returns the prettified document. -/
def convert_excel_to_xml (f : ExcelFile) (filename : String) :
    Bool × String :=
  let ex := read_excel_data f
  if ex.1.entries.isEmpty && ex.2.isEmpty then
    (false, "No valid data found in " ++ filename)
  else
    (true, prettify_xml (create_asycuda_xml ex.1 ex.2))

/-- `filename.lower().endswith(('.xlsx', '.xls', '.xlsm'))`
(batch.py line 1255). -/
def hasExcelExt (name : String) : Bool :=
  let low := name.toList.map lowerChar
  ".xlsx".toList.isSuffixOf low
    || ".xls".toList.isSuffixOf low
    || ".xlsm".toList.isSuffixOf low

/-- `filename.rsplit('.', 1)[0] + '.xml'` (batch.py line 1269). -/
def xmlOutputName (name : String) : String :=
  match (name.splitOn ".").dropLast with
  | [] => name ++ ".xml"
  | parts => String.intercalate "." parts ++ ".xml"

/-- The archive entries written by the loop of `convert_files`
(batch.py lines 1254-1289): for each uploaded file whose name has an Excel
extension, one entry — the converted document on success, an error report
otherwise; files with any other extension are skipped. -/
def convert_files : List (String × ExcelFile) → List (String × String)
  | [] => []
  | (name, f) :: rest =>
      if hasExcelExt name then
        (let r := convert_excel_to_xml f name
         if r.1 then (xmlOutputName name, r.2)
         else (name ++ "_ERROR.txt", "Conversion failed: " ++ r.2))
          :: convert_files rest
      else convert_files rest

/-! ## Helper lemmas -/

/-- Digit characters are digits. -/
theorem digitChar_isDigit (r : ℕ) (h : r < 10) : (digitChar r).isDigit = true := by
  interval_cases r <;> decide

/-- Every character produced by `natReprAux` is a digit or comes from the
accumulator. -/
theorem natReprAux_all_digits :
    ∀ fuel n acc, (∀ c ∈ acc, c.isDigit = true) →
      ∀ c ∈ natReprAux fuel n acc, c.isDigit = true := by
  intro fuel
  induction fuel with
  | zero => intro n acc hacc c hc; exact hacc c hc
  | succ f ih =>
      intro n acc hacc c hc
      by_cases hn : n = 0
      · rw [natReprAux, if_pos hn] at hc
        exact hacc c hc
      · rw [natReprAux, if_neg hn] at hc
        refine ih _ _ ?_ c hc
        intro c' hc'
        rcases List.mem_cons.mp hc' with h | h
        · subst h
          exact digitChar_isDigit _ (Nat.mod_lt _ (by norm_num))
        · exact hacc c' h

/-- `natReprAux` only extends its accumulator. -/
theorem natReprAux_length :
    ∀ fuel n acc, acc.length ≤ (natReprAux fuel n acc).length := by
  intro fuel
  induction fuel with
  | zero => intro n acc; exact le_refl _
  | succ f ih =>
      intro n acc
      by_cases hn : n = 0
      · rw [natReprAux, if_pos hn]
      · rw [natReprAux, if_neg hn]
        calc acc.length ≤ (digitChar (n % 10) :: acc).length := by simp
          _ ≤ _ := ih _ _

/-- The decimal rendering of a natural number is never a sentinel value:
it is non-empty and made of digits only. -/
theorem sentinel_natRepr (n : ℕ) : sentinel (natRepr n) = false := by
  by_cases hn : n = 0
  · subst hn; decide
  · have hrw : natReprAux (n + 1) n [] = natReprAux n (n / 10) [digitChar (n % 10)] := by
      rw [natReprAux, if_neg hn]
    have hd : ∀ c ∈ natReprAux (n + 1) n [], c.isDigit = true :=
      natReprAux_all_digits (n + 1) n [] (by intro c hc; cases hc)
    have hl : 1 ≤ (natReprAux (n + 1) n []).length := by
      rw [hrw]
      calc 1 = ([digitChar (n % 10)] : List Char).length := rfl
        _ ≤ _ := natReprAux_length n (n / 10) _
    rw [natRepr, if_neg hn]
    simp only [sentinel, Bool.or_eq_false_iff, beq_eq_false_iff_ne, ne_eq]
    refine ⟨⟨?_, ?_⟩, ?_⟩
    · intro h
      have hcs : natReprAux (n + 1) n [] = ([] : List Char) := congrArg String.data h
      rw [hcs] at hl
      simp at hl
    · intro h
      have hcs : natReprAux (n + 1) n [] = ['n', 'a', 'n'] := congrArg String.data h
      have := hd 'n' (by rw [hcs]; simp)
      exact absurd this (by decide)
    · intro h
      have hcs : natReprAux (n + 1) n [] = ['N', 'o', 'n', 'e'] := congrArg String.data h
      have := hd 'N' (by rw [hcs]; simp)
      exact absurd this (by decide)

/-- Erasing text through a mapped item list yields a replicated item
shape: the per-item subtrees all share one shape. -/
theorem eraseTextList_items (l : List (ℕ × Record)) :
    eraseTextList (l.map (fun p => create_item_element p.2 (p.1 + 1)))
      = List.replicate l.length itemShape := by
  induction l with
  | nil => rfl
  | cons hd tl ih =>
      simp only [List.map_cons, eraseTextList, ih, List.length_cons,
        List.replicate_succ]
      rfl

/-! ## Claims -/

/-- Claim C1, counterexample: the header record of an empty SAD sheet
resolves `Exporter_code` to the empty string — a value the spec calls
absent and not always-emitted — yet the serialized document still contains
an `Exporter_code` tag (as an empty element). -/
theorem c1_empty_tag_counterexample :
    sentinel (Record.get emptyRecord "Exporter_code" "") = true
    ∧ (ind 4 ++ "<Exporter_code/>")
        ∈ serializeLines 0 (create_asycuda_xml emptyRecord [emptyRecord]) := by
  exact ⟨by decide, by decide⟩

/-- Claim C1, amended: a leaf whose resolved value is empty, nan or None
is still emitted — as a childless element with no text, which serializes
to a self-closing tag; only the text is omitted, never the element. -/
theorem c1_absent_value_emits_empty_tag (d : ℕ) (tag txt : String)
    (h : sentinel txt = true) :
    serializeLines d (mkLeaf tag txt) = [ind d ++ "<" ++ tag ++ "/>"] := by
  have hm : mkLeaf tag txt = .elem tag none [] := by
    simp [mkLeaf, sentinelFilter, h]
  rw [hm, serializeLines]

/-- Witness for the amended C1 theorem at a concrete sentinel value. -/
theorem c1_absent_value_emits_empty_tag_witness :
    sentinel "" = true
    ∧ serializeLines 4 (mkLeaf "Exporter_code" "")
        = [ind 4 ++ "<" ++ "Exporter_code" ++ "/>"] :=
  ⟨by decide, c1_absent_value_emits_empty_tag 4 "Exporter_code" "" (by decide)⟩

/-- Claim C2 (confirmed): erasing all text values from the produced
document yields a tree that depends only on the number of item records:
tag names, sibling order and nesting depth are fixed by the mapping, and
only leaf texts and the count of `Item` subtrees vary with the input. -/
theorem c2_tree_shape_fixed (sad : Record) (items : List Record) :
    eraseText (create_asycuda_xml sad items) = docShape items.length := by
  have h := eraseTextList_items items.enum
  show XmlNode.elem "ASYCUDA" none
      [ eraseText (sadSection sad (calculate_form_totals items) items.length),
        .elem "Items" none
          (eraseTextList
            (items.enum.map (fun p => create_item_element p.2 (p.1 + 1)))) ]
    = docShape items.length
  rw [h, List.enum_length]
  rfl

/-- Claim C4, counterexample: the first supplementary-unit slot's output
does not omit the rank tag — its serialization contains an empty
`Supplementary_unit_rank` element. -/
theorem c4_rank_tag_counterexample :
    (ind 1 ++ "<Supplementary_unit_rank/>")
      ∈ serializeLines 0 (create_item_supplementary_unit emptyRecord "1") := by
  decide

/-- Claim C4, amended: slot 1 emits a rank element with no text (an empty
tag) together with code and name tags resolved row-or-default (PCE and
Aantal Stucks); slots 2 and 3 carry rank text 2 and 3 respectively and
contain no code element at all. -/
theorem c4_supplementary_unit_slots (r : Record) :
    child? (create_item_supplementary_unit r "1") "Supplementary_unit_rank"
      = some (.elem "Supplementary_unit_rank" none [])
    ∧ child? (create_item_supplementary_unit r "1") "Supplementary_unit_code"
      = some (mkLeaf "Supplementary_unit_code"
          (r.get "Supplementary_unit_code" "PCE"))
    ∧ child? (create_item_supplementary_unit r "1") "Supplementary_unit_name"
      = some (mkLeaf "Supplementary_unit_name"
          (r.get "Supplementary_unit_name_1" "Aantal Stucks"))
    ∧ child? (create_item_supplementary_unit r "2") "Supplementary_unit_rank"
      = some (mkLeaf "Supplementary_unit_rank" "2")
    ∧ child? (create_item_supplementary_unit r "2") "Supplementary_unit_code"
      = none
    ∧ child? (create_item_supplementary_unit r "3") "Supplementary_unit_rank"
      = some (mkLeaf "Supplementary_unit_rank" "3")
    ∧ child? (create_item_supplementary_unit r "3") "Supplementary_unit_code"
      = none :=
  ⟨rfl, rfl, rfl, rfl, rfl, rfl, rfl⟩

/-- Claim C5, counterexample: the item taxation block's Item_taxes_amount
is 4.3 — the duty-tax amount constant — and not the total-item-taxes
constant 347.75 the claim names. -/
theorem c5_item_taxes_amount_counterexample :
    getText (create_item_element emptyRecord 1) ["Taxation", "Item_taxes_amount"]
      = some "4.3"
    ∧ CONSIGNMENT_VALUES.total_item_taxes = "347.75"
    ∧ ("4.3" : String) ≠ "347.75" :=
  ⟨rfl, rfl, by decide⟩

/-- Claim C5, amended: every item's taxation block carries the duty-tax
amount constant as Item_taxes_amount (the same value as the nested line's
Duty_tax_amount, not the total-item-taxes constant), a mode of payment 1,
and one nested taxation line with duty-tax code IR, the three shipment
constants for base, rate and amount, and MP 1. -/
theorem c5_taxation_block (r : Record) (k : ℕ) :
    child? (create_item_element r k) "Taxation"
      = some (.elem "Taxation" none
          [ mkLeaf "Item_taxes_amount" CONSIGNMENT_VALUES.duty_tax_amount,
            mkLeaf "Item_taxes_mode_of_payment" "1",
            .elem "Taxation_line" none
              [ mkLeaf "Duty_tax_code" "IR",
                mkLeaf "Duty_tax_base" CONSIGNMENT_VALUES.duty_tax_base,
                mkLeaf "Duty_tax_rate" CONSIGNMENT_VALUES.duty_tax_rate,
                mkLeaf "Duty_tax_amount" CONSIGNMENT_VALUES.duty_tax_amount,
                mkLeaf "Duty_tax_MP" "1" ] ]) :=
  rfl

/-- Claim C6 (confirmed): each sheet's extraction ignores the other
sheet's outcome; a file with a missing SAD sheet but a non-empty Items
sheet converts successfully, header leaves falling back to their defaults;
and the conversion reports failure exactly when both the header record and
the item sequence are empty. -/
theorem c6_sheet_failure_isolation :
    (∀ s s' it, (read_excel_data ⟨s, it⟩).2 = (read_excel_data ⟨s', it⟩).2)
    ∧ (∀ sd it it', (read_excel_data ⟨sd, it⟩).1 = (read_excel_data ⟨sd, it'⟩).1)
    ∧ (∀ it, (read_excel_data ⟨none, it⟩).1 = emptyRecord)
    ∧ (∀ sd, (read_excel_data ⟨sd, none⟩).2 = [])
    ∧ (∀ r rows name, (convert_excel_to_xml ⟨none, some (r :: rows)⟩ name).1 = true)
    ∧ (∀ rows, getText (create_asycuda_xml emptyRecord rows)
        ["SAD", "Identification", "Office_segment", "Customs_clearance_office_code"]
        = some "LV01")
    ∧ (∀ f name, (convert_excel_to_xml f name).1
        = !((read_excel_data f).1.entries.isEmpty
            && (read_excel_data f).2.isEmpty)) := by
  refine ⟨fun s s' it => rfl, fun sd it it' => rfl, fun it => rfl, fun sd => rfl,
    fun r rows name => rfl, fun rows => rfl, ?_⟩
  intro f name
  unfold convert_excel_to_xml
  by_cases h : (read_excel_data f).1.entries.isEmpty
      && (read_excel_data f).2.isEmpty
  · simp [h]
  · simp [h]

/-- Claim C7, counterexample: a batch of one submitted file whose name has
no Excel extension produces an empty archive — zero entries for one
input file. -/
theorem c7_entry_count_counterexample :
    convert_files [("a.txt", (⟨none, none⟩ : ExcelFile))] = []
    ∧ ([("a.txt", (⟨none, none⟩ : ExcelFile))].length = 1) :=
  ⟨by decide, rfl⟩

/-- Claim C7, amended: the archive contains exactly one entry — converted
document or error report — per submitted file whose lowercased name ends
in .xlsx, .xls or .xlsm; files without such an extension are skipped and
produce no entry. -/
theorem c7_entry_count_per_excel_file (files : List (String × ExcelFile)) :
    (convert_files files).length
      = (files.filter (fun p => hasExcelExt p.1)).length := by
  induction files with
  | nil => rfl
  | cons hd tl ih =>
      obtain ⟨name, f⟩ := hd
      by_cases h : hasExcelExt name
      · simp [convert_files, h, List.filter_cons, ih]
      · simp [convert_files, h, List.filter_cons, ih]

/-- Claim C8 (confirmed): the Total block's Total_weight leaf is the
decimal rendering of the number of item records. -/
theorem c8_total_weight_is_item_count (sad : Record) (items : List Record) :
    getText (create_asycuda_xml sad items)
      ["SAD", "Valuation", "Total", "Total_weight"]
      = some (natRepr items.length) := by
  have h1 : getText (create_asycuda_xml sad items)
      ["SAD", "Valuation", "Total", "Total_weight"]
      = sentinelFilter (natRepr items.length) := rfl
  rw [h1]
  simp [sentinelFilter, sentinel_natRepr]

/-- Claim C9 (confirmed): the Total block's Total_invoice leaf carries the
constant table's total_invoice value for every header record and every
item list. -/
theorem c9_total_invoice_is_constant (sad : Record) (items : List Record) :
    getText (create_asycuda_xml sad items)
      ["SAD", "Valuation", "Total", "Total_invoice"]
      = some CONSIGNMENT_VALUES.total_invoice :=
  rfl

/-- Claim C10 (confirmed): both financial-transaction code leaves resolve
from the header's Financial_transaction Code_1 column with default 1, so
they are equal on every input. -/
theorem c10_financial_codes_identical (sad : Record) (items : List Record) :
    getText (create_asycuda_xml sad items)
      ["SAD", "Financial", "Financial_transaction", "Code_1"]
      = sentinelFilter (sad.get "Financial_transaction Code_1" "1")
    ∧ getText (create_asycuda_xml sad items)
        ["SAD", "Financial", "Financial_transaction", "Code_2"]
      = getText (create_asycuda_xml sad items)
          ["SAD", "Financial", "Financial_transaction", "Code_1"] :=
  ⟨rfl, rfl⟩
